import Mathlib

/-!
Verification of the SDI-12 substrate sensor sketch
(`PoESP32-Ethernet-sketch.ino`).

The sketch's numeric code runs on `float`; here the arithmetic is embedded
over `ℚ`, with the source's decimal literals kept exactly (the claims are
about the algebraic shape of the formulas: polynomial evaluation, clamping,
squaring, field selection — none depends on binary rounding).  I/O-bound
routines (`readSensor`, `publishData`, `reconnectMQTT`, `loop`) are embedded
as pure functions of their external inputs: the accumulated serial response,
the boolean outcomes of `mqtt.connect` / `mqtt.publish`, and the current
`millis()` value; their externally visible actions are traced as `Event`s.
-/

namespace Sdi12

/-! ## Calibration engine -/

/-- The Arduino `constrain(amt, low, high)` macro:
`((amt)<(low)?(low):((amt)>(high)?(high):(amt)))`. -/
def constrain (amt low high : ℚ) : ℚ :=
  if amt < low then low else if amt > high then high else amt

/-- `calculateVWCNonSoil` from the sketch: cubic polynomial in the raw count,
scaled by 100, constrained to `[0, 100]`. -/
def calculateVWCNonSoil (raw : ℚ) : ℚ :=
  let result := (6.771e-10 * raw ^ 3 -
                 5.105e-6 * raw ^ 2 +
                 1.302e-2 * raw -
                 10.848) * 100
  constrain result 0 100

/-- The unclamped, unscaled cubic used by `calculateVWCNonSoil` (named here so
claims can refer to it; the coefficients are the sketch's literals). -/
def vwcCubic (raw : ℚ) : ℚ :=
  6.771e-10 * raw ^ 3 - 5.105e-6 * raw ^ 2 + 1.302e-2 * raw - 10.848

/-- `calculateECSimple` from the sketch, with `EC_SIMPLE_FACTOR = 500.0`. -/
def calculateECSimple (raw_ec : ℚ) : ℚ :=
  raw_ec / 500

/-- `calculateECEpsilon` from the sketch: a second cubic producing the
intermediate permittivity `epsilon`, then `pow(epsilon, 2)`. -/
def calculateECEpsilon (raw : ℚ) : ℚ :=
  let epsilon := 2.887e-9 * raw ^ 3 -
                 2.080e-5 * raw ^ 2 +
                 5.276e-2 * raw -
                 43.39
  epsilon ^ 2

/-- The inner cubic of `calculateECEpsilon`, named for use in claims. -/
def ecCubic (raw : ℚ) : ℚ :=
  2.887e-9 * raw ^ 3 - 2.080e-5 * raw ^ 2 + 5.276e-2 * raw - 43.39

/-! ## Arduino `String` primitives used by the parser -/

/-- Index scanner behind `String::indexOf(ch, fromIndex)`: first index `≥ i`
(the accumulator `i` is the absolute index of the head of `l`) at which `c`
occurs, or `-1`. -/
def idxAux (c : Char) : List Char → ℕ → Int
  | [], _ => -1
  | x :: xs, i => if x = c then (i : Int) else idxAux c xs (i + 1)

/-- Arduino `String::indexOf(ch, fromIndex)`; `fromIndex` is converted to
`unsigned int` by the C++ call (it is never negative in the sketch). -/
def indexOfChar (s : List Char) (c : Char) (fromIndex : Int) : Int :=
  idxAux c (s.drop fromIndex.toNat) fromIndex.toNat

/-- `plusIndex1` in `readSensor`: `sensorData.indexOf('+')`. -/
def plusIndex1 (sensorData : List Char) : Int :=
  indexOfChar sensorData '+' 0

/-- `plusIndex2` in `readSensor`: `sensorData.indexOf('+', plusIndex1 + 1)`. -/
def plusIndex2 (sensorData : List Char) : Int :=
  indexOfChar sensorData '+' (plusIndex1 sensorData + 1)

/-- `plusIndex3` in `readSensor`: `sensorData.indexOf('+', plusIndex2 + 1)`. -/
def plusIndex3 (sensorData : List Char) : Int :=
  indexOfChar sensorData '+' (plusIndex2 sensorData + 1)

/-- Arduino `String::substring(left, right)`: swaps the bounds if reversed,
clamps to the length, returns the characters in `[left, right)`. -/
def substringA (s : List Char) (left right : ℕ) : List Char :=
  (s.take (min (max left right) s.length)).drop (min left right)

/-- Numeric value of a decimal digit character. -/
def digitVal (c : Char) : ℚ :=
  ((c.toNat - 48 : ℕ) : ℚ)

/-- Integer-part scanner of `atof`: consumes leading digits, returns the
accumulated value and the unconsumed remainder. -/
def parseIntPart : List Char → ℚ → ℚ × List Char
  | [], acc => (acc, [])
  | c :: cs, acc =>
    if c.isDigit then parseIntPart cs (acc * 10 + digitVal c) else (acc, c :: cs)

/-- Fractional-part scanner of `atof`: consumes digits, weighting them by the
running scale; stops at the first non-digit. -/
def parseFracPart : List Char → ℚ → ℚ
  | [], _ => 0
  | c :: cs, scale =>
    if c.isDigit then digitVal c * scale + parseFracPart cs (scale / 10) else 0

/-- Unsigned magnitude of `atof`: digits, optionally followed by `'.'` and
more digits; parsing stops at the first unrecognized character. -/
def atofMag (s : List Char) : ℚ :=
  let (ip, rest) := parseIntPart s 0
  match rest with
  | '.' :: frac => ip + parseFracPart frac (1 / 10)
  | _ => ip

/-- Model of Arduino `String::toFloat` (C `atof`): an optional single sign,
then the unsigned magnitude; text with no leading numeric part parses to `0`.
Leading-whitespace skipping and exponent notation are omitted: no field the
sensor produces contains either, and no claim depends on them. -/
def atofQ : List Char → ℚ
  | '-' :: rest => -(atofMag rest)
  | '+' :: rest => atofMag rest
  | s => atofMag s

/-! ## The reading record and `readSensor` -/

/-- `struct SensorData` from the sketch. -/
structure SensorData where
  vwc_raw : ℚ
  vwc_calibrated : ℚ
  temperature : ℚ
  ec_raw : ℚ
  ec_simple : ℚ
  ec_epsilon : ℚ
  valid : Bool
  timestamp : ℕ
deriving DecidableEq

/-- The local `vwcRaw` string of `readSensor`:
`sensorData.substring(plusIndex1 + 1, plusIndex2)`. -/
def vwcField (sensorData : List Char) : List Char :=
  substringA sensorData (plusIndex1 sensorData + 1).toNat (plusIndex2 sensorData).toNat

/-- The local `temperature` string of `readSensor`:
`sensorData.substring(plusIndex2 + 1, plusIndex3)`. -/
def temperatureField (sensorData : List Char) : List Char :=
  substringA sensorData (plusIndex2 sensorData + 1).toNat (plusIndex3 sensorData).toNat

/-- The local `ec` string of `readSensor`:
`sensorData.substring(plusIndex3 + 1)` — the suffix after the third
separator. -/
def ecField (sensorData : List Char) : List Char :=
  sensorData.drop (plusIndex3 sensorData + 1).toNat

/-- `readSensor` from the sketch, as a function of its external inputs: the
accumulated serial `response` (the bytes drained after the `0M!` / `0D0!`
command pair — the commands, delays and byte-draining are I/O against the
SDI-12 collaborator) and the `millis()` value `now`.  The record starts as
`{0,0,0,0,0,0,false,millis()}` and is populated only when the length check
and all three separator searches succeed; `sensorData = response.substring(1)`
strips the address echo. -/
def readSensor (response : List Char) (now : ℕ) : SensorData :=
  if 1 < response.length then
    if plusIndex1 (response.drop 1) ≠ -1 ∧ plusIndex2 (response.drop 1) ≠ -1 ∧
        plusIndex3 (response.drop 1) ≠ -1 then
      { vwc_raw := atofQ (vwcField (response.drop 1))
        vwc_calibrated := calculateVWCNonSoil (atofQ (vwcField (response.drop 1)))
        temperature := atofQ (temperatureField (response.drop 1))
        ec_raw := atofQ (ecField (response.drop 1))
        ec_simple := calculateECSimple (atofQ (ecField (response.drop 1)))
        ec_epsilon := calculateECEpsilon (atofQ (vwcField (response.drop 1)))
        valid := true
        timestamp := now }
    else ⟨0, 0, 0, 0, 0, 0, false, now⟩
  else ⟨0, 0, 0, 0, 0, 0, false, now⟩

/-- Modelled from the spec: the first parsed field as claim C6 words it — the
substring of the stripped response delimited by `(start, sep1)`, i.e. the
characters strictly before the first `'+'` separator.  (The code instead
takes the characters between the first and second separators.) -/
def specFirstField (sensorData : List Char) : List Char :=
  sensorData.take (plusIndex1 sensorData).toNat

/-! ## MQTT configuration data from the sketch -/

/-- `hostname = HOSTNAME_PREFIX HOSTNAME_SUFFIX`. -/
def hostname : String := "sdi12sensor-greenhouse1"

/-- `availability_topic` constant. -/
def availability_topic : String := "sensors/sdi12sensor/status"

/-- `discovery_prefix` constant. -/
def discovery_prefix : String := "homeassistant"

/-- `getStateTopic()`. -/
def getStateTopic : String :=
  "sensors/sdi12sensor/" ++ hostname ++ "/state"

/-- `MQTT_PUBLISH_INTERVAL` (ms). -/
def MQTT_PUBLISH_INTERVAL : ℕ := 10000

/-- `struct SensorConfig` from `publishDiscoveryConfigs`. -/
structure SensorConfig where
  name : String
  id : String
  device_class : String
  unit : String
  value_template : String
deriving DecidableEq

/-- The `configs[]` table: one entry per exposed physical quantity. -/
def configs : List SensorConfig :=
  [⟨"SDI12 VWC", "vwc_calibrated", "moisture", "%",
      "\x7b\x7b value_json.vwc_calibrated | float \x7d\x7d"⟩,
   ⟨"SDI12 Raw VWC", "vwc_raw", "", "RAW",
      "\x7b\x7b value_json.vwc_raw | float \x7d\x7d"⟩,
   ⟨"SDI12 Temperature", "temperature", "temperature", "°C",
      "\x7b\x7b value_json.temperature | float \x7d\x7d"⟩,
   ⟨"SDI12 Raw EC", "ec_raw", "", "µS/cm",
      "\x7b\x7b value_json.ec_raw | float \x7d\x7d"⟩,
   ⟨"SDI12 EC ppm500", "ec_simple", "", "pW EC",
      "\x7b\x7b value_json.ec_simple | float \x7d\x7d"⟩,
   ⟨"SDI12 EC Epsilon", "ec_epsilon", "", "pW EC",
      "\x7b\x7b value_json.ec_epsilon | float \x7d\x7d"⟩]

/-- The `device_config` JSON fragment shared by all discovery payloads. -/
def device_config : String :=
  "\x7b\"identifiers\":[\"" ++ hostname ++ "\"]," ++
  "\"name\":\"" ++ hostname ++ "\"," ++
  "\"model\":\"SDI-12 substrate Sensor\"," ++
  "\"manufacturer\":\"Chill Division\"\x7d"

/-- The `config_topic` built for one entry of `configs[]`. -/
def discoveryConfigTopic (sensor : SensorConfig) : String :=
  discovery_prefix ++ "/sensor/" ++ hostname ++ "/" ++ sensor.id ++ "/config"

/-- The `config` JSON payload built for one entry of `configs[]`; the
`device_class` key is emitted only when the tag is nonempty
(`strlen(sensor.device_class) > 0`). -/
def discoveryConfigPayload (sensor : SensorConfig) : String :=
  let config := "\x7b\"name\":\"" ++ sensor.name ++ "\"," ++
                "\"object_id\":\"" ++ hostname ++ "_" ++ sensor.id ++ "\"," ++
                "\"unique_id\":\"" ++ hostname ++ "_" ++ sensor.id ++ "\""
  let config := if sensor.device_class.length > 0 then
                  config ++ ",\"device_class\":\"" ++ sensor.device_class ++ "\""
                else config
  config ++ ",\"state_class\":\"measurement\"," ++
  "\"unit_of_measurement\":\"" ++ sensor.unit ++ "\"," ++
  "\"state_topic\":\"" ++ getStateTopic ++ "\"," ++
  "\"value_template\":\"" ++ sensor.value_template ++ "\"," ++
  "\"availability_topic\":\"" ++ availability_topic ++ "\"," ++
  "\"payload_available\":\"online\"," ++
  "\"payload_not_available\":\"offline\"," ++
  "\"device\":" ++ device_config ++ "\x7d"

/-! ## Event traces and the stateful drivers -/

/-- Externally visible actions of the sketch, in program order: an
`mqtt.connect` attempt with its outcome, a blocking `delay(ms)`, or an
`mqtt.publish(topic, payload, retained)` call. -/
inductive Event where
  | connectAttempt (ok : Bool)
  | delayMs (ms : ℕ)
  | publish (topic payload : String) (retained : Bool)
deriving DecidableEq

/-- The trace of `publishDiscoveryConfigs()`: for each of the six entries of
`configs[]`, one retained publish of its discovery payload followed by
`delay(50)`; then a retained `"online"` on the availability topic. -/
def publishDiscoveryConfigs : List Event :=
  (configs.map fun sensor =>
    [Event.publish (discoveryConfigTopic sensor) (discoveryConfigPayload sensor) true,
     Event.delayMs 50]).flatten ++
  [Event.publish availability_topic "online" true]

/-- The process-wide mutable state the claims are about: `readingNumber`,
`lastPublishTime`, and whether the MQTT session is established. -/
structure SysState where
  readingNumber : ℕ
  lastPublishTime : ℕ
  mqttConnected : Bool
deriving DecidableEq

/-- `reconnectMQTT()` as a function of the outcomes of the successive
`mqtt.connect` calls (one `Bool` per loop iteration; Ethernet is modelled as
up throughout, so the `ETH.localIP()` guard passes).  On each failure the
loop delays 5000 ms and retries; on success it publishes the retained
`"online"` availability marker and runs `publishDiscoveryConfigs()`.  `none`
means the outcome list was exhausted while still disconnected — the real
loop would simply keep retrying. -/
def reconnectMQTT (s : SysState) : List Bool → Option (SysState × List Event)
  | [] => if s.mqttConnected then some (s, []) else none
  | ok :: rest =>
    if s.mqttConnected then some (s, [])
    else if ok then
      some ({ s with mqttConnected := true },
            Event.connectAttempt true ::
            Event.publish availability_topic "online" true ::
            publishDiscoveryConfigs)
    else
      (reconnectMQTT s rest).map fun r =>
        (r.1, Event.connectAttempt false :: Event.delayMs 5000 :: r.2)

/-- Two-decimal rendering of a rational, modelling Arduino
`String(double, 2)` (dtostrf): round half up at the second decimal, render
with exactly two fractional digits.  (Binary-float rounding of the deployed
`float` values is out of scope; no claim depends on the digits produced.) -/
def fmt2 (q : ℚ) : String :=
  let sign := if q < 0 then "-" else ""
  let cents := (Int.floor (|q| * 100 + 1 / 2)).toNat
  sign ++ toString (cents / 100) ++ "." ++
    (if cents % 100 < 10 then "0" else "") ++ toString (cents % 100)

/-- The `state_payload` JSON built by `publishData`. -/
def statePayload (data : SensorData) : String :=
  "\x7b\"vwc_raw\":" ++ fmt2 data.vwc_raw ++
  ",\"vwc_calibrated\":" ++ fmt2 data.vwc_calibrated ++
  ",\"temperature\":" ++ fmt2 data.temperature ++
  ",\"ec_raw\":" ++ fmt2 data.ec_raw ++
  ",\"ec_simple\":" ++ fmt2 data.ec_simple ++
  ",\"ec_epsilon\":" ++ fmt2 data.ec_epsilon ++ "\x7d"

/-- `publishData(data)` as a function of the outcome `pubOk` of the single
`mqtt_publish` call on the state topic: returns early with no publish when
the record is invalid; otherwise publishes once (retained) and increments
`readingNumber` only when the publish succeeded. -/
def publishData (data : SensorData) (pubOk : Bool) (s : SysState) :
    SysState × List Event :=
  if !data.valid then (s, [])
  else
    let ev := Event.publish getStateTopic (statePayload data) true
    if pubOk then ({ s with readingNumber := s.readingNumber + 1 }, [ev])
    else (s, [ev])

/-- One iteration of `loop()`: reconnect if the session is down (driven by
`outcomes`), then — when the 10 s interval has elapsed — run one `readSensor`
on the drained `response`, publish it if valid, and advance
`lastPublishTime` to `currentTime` in either case.  `millis()` wraparound of
the unsigned subtraction is out of scope; `ℕ` subtraction is used. -/
def loopTick (s : SysState) (outcomes : List Bool) (currentTime : ℕ)
    (response : List Char) (pubOk : Bool) : Option (SysState × List Event) :=
  match (if s.mqttConnected then some (s, ([] : List Event)) else reconnectMQTT s outcomes) with
  | none => none
  | some (s1, tr) =>
    if MQTT_PUBLISH_INTERVAL ≤ currentTime - s1.lastPublishTime then
      let data := readSensor response currentTime
      let (s2, tr2) := if data.valid then publishData data pubOk s1 else (s1, [])
      some ({ s2 with lastPublishTime := currentTime }, tr ++ tr2)
    else some (s1, tr)

/-- The subsequence of publish calls in a trace, as
(topic, payload, retained) triples. -/
def publishesOf : List Event → List (String × String × Bool)
  | [] => []
  | Event.publish t p r :: rest => (t, p, r) :: publishesOf rest
  | _ :: rest => publishesOf rest

/-- The trace of `n` consecutive failed reconnect iterations: each one
`mqtt.connect` attempt followed by the fixed 5-second backoff. -/
def failTrace : ℕ → List Event
  | 0 => []
  | n + 1 => Event.connectAttempt false :: Event.delayMs 5000 :: failTrace n

/-- Number of `mqtt.connect` attempts recorded in a trace. -/
def countConnects (tr : List Event) : ℕ :=
  tr.countP fun e =>
    match e with
    | Event.connectAttempt _ => true
    | _ => false

/-! ## Helper lemmas about the index scanner -/

theorem idxAux_found (c : Char) :
    ∀ (l : List Char) (i : ℕ) (r : Int), idxAux c l i = r → r ≠ -1 →
      ∃ (k : ℕ) (l1 l2 : List Char),
        r = ((i + k : ℕ) : Int) ∧ l = l1 ++ c :: l2 ∧ l1.length = k ∧ c ∉ l1 := by
  intro l
  induction l with
  | nil =>
    intro i r h hne
    simp [idxAux] at h
    exact absurd h.symm hne
  | cons x xs ih =>
    intro i r h hne
    by_cases hx : x = c
    · subst hx
      refine ⟨0, [], xs, ?_, by simp, rfl, by simp⟩
      simp [idxAux] at h
      omega
    · have h' : idxAux c xs (i + 1) = r := by simpa [idxAux, hx] using h
      obtain ⟨k, l1, l2, hr, hl, hlen, hmem⟩ := ih (i + 1) r h' hne
      refine ⟨k + 1, x :: l1, l2, ?_, by simp [hl], by simp [hlen], ?_⟩
      · rw [hr]; push_cast; ring
      · simp only [List.mem_cons, not_or]
        exact ⟨fun hcx => hx hcx.symm, hmem⟩

theorem count_of_found (c : Char) (s : List Char) (p : ℕ) (r : Int)
    (h : idxAux c (s.drop p) p = r) (hne : r ≠ -1) :
    ∃ q : ℕ, r = (q : Int) ∧ p ≤ q ∧
      (s.drop p).count c = (s.drop (q + 1)).count c + 1 := by
  obtain ⟨k, l1, l2, hr, hl, hlen, hmem⟩ := idxAux_found c (s.drop p) p r h hne
  refine ⟨p + k, by exact_mod_cast hr, Nat.le_add_right p k, ?_⟩
  have hdrop : s.drop (p + k + 1) = l2 := by
    have h1 : s.drop (p + k + 1) = (s.drop p).drop (k + 1) := by
      rw [List.drop_drop]; ring_nf
    rw [h1, hl, List.append_cons]
    have hlen' : (l1 ++ [c]).length = k + 1 := by simp [hlen]
    rw [← hlen', List.drop_left]
  rw [hdrop, hl, List.count_append, List.count_cons_self,
    List.count_eq_zero.mpr hmem, Nat.zero_add]

/-- A record can come out of `readSensor` marked valid exactly when the raw
response is longer than one byte and all three sequential separator searches
succeed.  (The `toFloat` conversions are total — malformed text parses to
`0` — so no further condition is involved.) -/
theorem readSensor_valid_iff (response : List Char) (t : ℕ) :
    (readSensor response t).valid = true ↔
      (1 < response.length ∧ plusIndex1 (response.drop 1) ≠ -1 ∧
        plusIndex2 (response.drop 1) ≠ -1 ∧ plusIndex3 (response.drop 1) ≠ -1) := by
  unfold readSensor
  by_cases h1 : 1 < response.length
  · rw [if_pos h1]
    by_cases h2 : plusIndex1 (response.drop 1) ≠ -1 ∧
        plusIndex2 (response.drop 1) ≠ -1 ∧ plusIndex3 (response.drop 1) ≠ -1
    · rw [if_pos h2]
      exact iff_of_true rfl ⟨h1, h2⟩
    · rw [if_neg h2]
      exact iff_of_false (by exact Bool.noConfusion) fun hh => h2 hh.2
  · rw [if_neg h1]
    exact iff_of_false (by exact Bool.noConfusion) fun hh => h1 hh.1

/-- Full characterization of a valid `readSensor` result. -/
theorem readSensor_valid_eq (response : List Char) (t : ℕ)
    (h : (readSensor response t).valid = true) :
    readSensor response t =
      { vwc_raw := atofQ (vwcField (response.drop 1))
        vwc_calibrated := calculateVWCNonSoil (atofQ (vwcField (response.drop 1)))
        temperature := atofQ (temperatureField (response.drop 1))
        ec_raw := atofQ (ecField (response.drop 1))
        ec_simple := calculateECSimple (atofQ (ecField (response.drop 1)))
        ec_epsilon := calculateECEpsilon (atofQ (vwcField (response.drop 1)))
        valid := true
        timestamp := t } := by
  obtain ⟨h1, h2⟩ : (1 < response.length ∧ plusIndex1 (response.drop 1) ≠ -1 ∧
      plusIndex2 (response.drop 1) ≠ -1 ∧ plusIndex3 (response.drop 1) ≠ -1) := by
    have := (readSensor_valid_iff response t).mp h
    exact ⟨this.1, this.2⟩
  unfold readSensor
  rw [if_pos h1, if_pos h2]

/-- An invalid `readSensor` result is the untouched zero-initialized record. -/
theorem readSensor_invalid_eq (response : List Char) (t : ℕ)
    (h : (readSensor response t).valid = false) :
    readSensor response t = ⟨0, 0, 0, 0, 0, 0, false, t⟩ := by
  by_cases h1 : 1 < response.length
  · by_cases h2 : plusIndex1 (response.drop 1) ≠ -1 ∧
        plusIndex2 (response.drop 1) ≠ -1 ∧ plusIndex3 (response.drop 1) ≠ -1
    · exfalso
      have hv := (readSensor_valid_iff response t).mpr ⟨h1, h2⟩
      rw [hv] at h
      exact Bool.noConfusion h
    · unfold readSensor
      rw [if_pos h1, if_neg h2]
  · unfold readSensor
    rw [if_neg h1]

/-- A valid parse requires at least three `'+'` characters in the stripped
response: the three sequential searches hit three pairwise distinct
occurrences. -/
theorem valid_count (response : List Char) (t : ℕ)
    (h : (readSensor response t).valid = true) :
    3 ≤ (response.drop 1).count '+' := by
  obtain ⟨-, hp1, hp2, hp3⟩ := (readSensor_valid_iff response t).mp h
  set s := response.drop 1 with hs
  have e1 : idxAux '+' (s.drop 0) 0 = plusIndex1 s := by
    simp [plusIndex1, indexOfChar]
  obtain ⟨q1, hq1, -, hc1⟩ := count_of_found '+' s 0 _ e1 hp1
  have e2 : idxAux '+' (s.drop (q1 + 1)) (q1 + 1) = plusIndex2 s := by
    have : (plusIndex1 s + 1).toNat = q1 + 1 := by rw [hq1]; omega
    simp [plusIndex2, indexOfChar, this]
  obtain ⟨q2, hq2, hle2, hc2⟩ := count_of_found '+' s (q1 + 1) _ e2 hp2
  have e3 : idxAux '+' (s.drop (q2 + 1)) (q2 + 1) = plusIndex3 s := by
    have : (plusIndex2 s + 1).toNat = q2 + 1 := by rw [hq2]; omega
    simp [plusIndex3, indexOfChar, this]
  obtain ⟨q3, hq3, hle3, hc3⟩ := count_of_found '+' s (q2 + 1) _ e3 hp3
  have h0 : s.drop 0 = s := List.drop_zero s
  rw [h0] at hc1
  omega

/-! ## Helper lemmas about the connection/publication drivers -/

/-- Every successful run of the reconnect loop from a disconnected state is
some number of (failed attempt, 5 s backoff) rounds followed by the fixed
connect-success event sequence. -/
theorem reconnect_success_shape (s : SysState) :
    ∀ (outcomes : List Bool) (s' : SysState) (tr : List Event),
      s.mqttConnected = false →
      reconnectMQTT s outcomes = some (s', tr) →
      ∃ n, s' = { s with mqttConnected := true } ∧
        tr = failTrace n ++
          Event.connectAttempt true ::
          Event.publish availability_topic "online" true ::
          publishDiscoveryConfigs := by
  intro outcomes
  induction outcomes with
  | nil =>
    intro s' tr hc h
    rw [reconnectMQTT, if_neg (by simp [hc])] at h
    exact Option.noConfusion h
  | cons ok rest ih =>
    intro s' tr hc h
    rw [reconnectMQTT, if_neg (by simp [hc])] at h
    by_cases hok : ok = true
    · rw [if_pos hok] at h
      obtain ⟨hs, htr⟩ := Prod.mk.injEq .. ▸ Option.some.injEq .. ▸ h
      exact ⟨0, hs.symm, by simp [failTrace, htr.symm]⟩
    · rw [if_neg hok] at h
      obtain ⟨⟨s'', tr''⟩, hrec, hmap⟩ := Option.map_eq_some'.mp h
      obtain ⟨n, hs, htr⟩ := ih s'' tr'' hc hrec
      obtain ⟨hs2, htr2⟩ := Prod.mk.injEq .. ▸ hmap
      refine ⟨n + 1, hs2 ▸ hs, ?_⟩
      rw [← htr2, htr]
      simp [failTrace]

/-- `reconnectMQTT` on `N` failures followed by a success: the full trace
equation. -/
theorem reconnect_replicate (s : SysState) (hc : s.mqttConnected = false) :
    ∀ N : ℕ,
      reconnectMQTT s (List.replicate N false ++ [true]) =
        some ({ s with mqttConnected := true },
          failTrace N ++
          Event.connectAttempt true ::
          Event.publish availability_topic "online" true ::
          publishDiscoveryConfigs) := by
  intro N
  induction N with
  | zero =>
    rw [List.replicate_zero, List.nil_append, reconnectMQTT,
      if_neg (by simp [hc]), if_pos rfl]
    simp [failTrace]
  | succ n ih =>
    rw [List.replicate_succ, List.cons_append, reconnectMQTT,
      if_neg (by simp [hc]), if_neg (by simp), ih]
    simp [failTrace]

theorem countConnects_append (l1 l2 : List Event) :
    countConnects (l1 ++ l2) = countConnects l1 + countConnects l2 :=
  List.countP_append _ _ _

theorem countConnects_failTrace (n : ℕ) : countConnects (failTrace n) = n := by
  induction n with
  | zero => rfl
  | succ m ih => simp [failTrace, countConnects, List.countP_cons] at ih ⊢; omega

theorem publishesOf_failTrace (n : ℕ) (l : List Event) :
    publishesOf (failTrace n ++ l) = publishesOf l := by
  induction n with
  | zero => rfl
  | succ m ih => simpa [failTrace, publishesOf] using ih

/-- When valid, the record's epsilon is the epsilon calibration of the
record's own (VWC-raw) first field. -/
theorem readSensor_eps (response : List Char) (t : ℕ)
    (h : (readSensor response t).valid = true) :
    (readSensor response t).ec_epsilon =
      calculateECEpsilon (readSensor response t).vwc_raw := by
  rw [readSensor_valid_eq response t h]

/-- `constrain` with ordered bounds is monotone in its argument. -/
theorem constrain_mono {a b lo hi : ℚ} (hlh : lo ≤ hi) (h : a ≤ b) :
    constrain a lo hi ≤ constrain b lo hi := by
  unfold constrain
  split_ifs <;> linarith

/-! ## Claims -/

/-- C1: `readSensor` marks a record `valid = true` exactly when the raw
response is longer than one byte and the three sequential `'+'`-separator
searches on the address-stripped response all succeed; if any separator is
missing or the length is ≤ 1, the record has `valid = false`.  The three
`toFloat` conversions are total (malformed text parses to `0`), so "all
three substrings parsed as numbers" imposes no further condition. -/
theorem claim_C1 (response : List Char) (t : ℕ) :
    (readSensor response t).valid = true ↔
      (1 < response.length ∧ plusIndex1 (response.drop 1) ≠ -1 ∧
        plusIndex2 (response.drop 1) ≠ -1 ∧ plusIndex3 (response.drop 1) ≠ -1) :=
  readSensor_valid_iff response t

/-- C2: for every valid reading, `ec_epsilon` is `calculateECEpsilon` applied
to the parsed VWC-raw field — and it is not a function of the EC-raw field:
any second valid reading with the same `vwc_raw` has the same `ec_epsilon`,
whatever its `ec_raw`. -/
theorem claim_C2 (resp1 resp2 : List Char) (t1 t2 : ℕ)
    (h1 : (readSensor resp1 t1).valid = true) :
    (readSensor resp1 t1).ec_epsilon =
      calculateECEpsilon (readSensor resp1 t1).vwc_raw ∧
    ((readSensor resp2 t2).valid = true →
      (readSensor resp2 t2).vwc_raw = (readSensor resp1 t1).vwc_raw →
      (readSensor resp2 t2).ec_epsilon = (readSensor resp1 t1).ec_epsilon) := by
  refine ⟨readSensor_eps resp1 t1 h1, fun h2 hvwc => ?_⟩
  rw [readSensor_eps resp2 t2 h2, readSensor_eps resp1 t1 h1, hvwc]

/-- C2 witness: two concrete valid responses sharing the VWC-raw field `0`
but with different EC-raw fields (`3` vs `789`) get the same `ec_epsilon`. -/
theorem claim_C2_witness :
    (readSensor (String.toList "0+0+2+3") 5).ec_epsilon =
      calculateECEpsilon (readSensor (String.toList "0+0+2+3") 5).vwc_raw ∧
    (readSensor (String.toList "0+0+9+789") 6).ec_epsilon =
      (readSensor (String.toList "0+0+2+3") 5).ec_epsilon ∧
    (readSensor (String.toList "0+0+9+789") 6).ec_raw ≠
      (readSensor (String.toList "0+0+2+3") 5).ec_raw :=
  ⟨(claim_C2 (String.toList "0+0+2+3") (String.toList "0+0+9+789") 5 6 (by decide)).1,
   (claim_C2 (String.toList "0+0+2+3") (String.toList "0+0+9+789") 5 6
      (by decide)).2 (by decide) rfl,
   by
     simp +decide [readSensor, plusIndex1, plusIndex2, plusIndex3, indexOfChar,
       idxAux, vwcField, temperatureField, ecField, substringA, atofQ, atofMag,
       parseIntPart, parseFracPart, digitVal]
     norm_num⟩

/-- C3: `calculateVWCNonSoil` is the cubic `vwcCubic`, scaled by 100 and then
clamped to `[0, 100]`; its result always lies in `[0, 100]`, and it is
monotone with respect to the unclamped scaled polynomial value. -/
theorem claim_C3 (raw x y : ℚ) :
    calculateVWCNonSoil raw = constrain (vwcCubic raw * 100) 0 100 ∧
    0 ≤ calculateVWCNonSoil raw ∧ calculateVWCNonSoil raw ≤ 100 ∧
    (vwcCubic x * 100 ≤ vwcCubic y * 100 →
      calculateVWCNonSoil x ≤ calculateVWCNonSoil y) := by
  have hdef : ∀ z : ℚ, calculateVWCNonSoil z = constrain (vwcCubic z * 100) 0 100 :=
    fun z => rfl
  refine ⟨hdef raw, ?_, ?_, fun hmono => ?_⟩
  · rw [hdef raw]; unfold constrain; split_ifs <;> linarith
  · rw [hdef raw]; unfold constrain; split_ifs <;> linarith
  · rw [hdef x, hdef y]
    exact constrain_mono (by norm_num) hmono

/-- C3 witness at `raw = x = 0`, `y = 1600`. -/
theorem claim_C3_witness :
    calculateVWCNonSoil 0 = constrain (vwcCubic 0 * 100) 0 100 ∧
    0 ≤ calculateVWCNonSoil 0 ∧ calculateVWCNonSoil 0 ≤ 100 ∧
    calculateVWCNonSoil 0 ≤ calculateVWCNonSoil 1600 := by
  obtain ⟨h1, h2, h3, h4⟩ := claim_C3 0 0 1600
  exact ⟨h1, h2, h3, h4 (by norm_num [vwcCubic])⟩

/-- C4: `calculateECEpsilon` is the square of the cubic `ecCubic`, hence
non-negative for every input. -/
theorem claim_C4 (raw : ℚ) :
    calculateECEpsilon raw = ecCubic raw ^ 2 ∧ 0 ≤ calculateECEpsilon raw :=
  ⟨rfl, by rw [show calculateECEpsilon raw = ecCubic raw ^ 2 from rfl]
           exact sq_nonneg (ecCubic raw)⟩

/-- C5: a record that parses invalid is the untouched zero record (all six
derived fields zero), `publishData` performs no publish for it and leaves the
state unchanged, and a connected loop tick on such a response emits no events
while still advancing `lastPublishTime` to the current time. -/
theorem claim_C5 (response : List Char) (ct : ℕ) (s : SysState) (pubOk : Bool)
    (hv : (readSensor response ct).valid = false)
    (hc : s.mqttConnected = true)
    (hdue : MQTT_PUBLISH_INTERVAL ≤ ct - s.lastPublishTime) :
    readSensor response ct = ⟨0, 0, 0, 0, 0, 0, false, ct⟩ ∧
    publishData (readSensor response ct) pubOk s = (s, []) ∧
    loopTick s [] ct response pubOk =
      some ({ s with lastPublishTime := ct }, []) := by
  have h0 := readSensor_invalid_eq response ct hv
  refine ⟨h0, ?_, ?_⟩
  · rw [h0]; rfl
  · simp [loopTick, hc, hdue, hv]

/-- C5 witness: the one-byte response `"0"` at tick time 10000 from the
connected state `⟨0, 0, true⟩`. -/
theorem claim_C5_witness :
    readSensor (String.toList "0") 10000 = ⟨0, 0, 0, 0, 0, 0, false, 10000⟩ ∧
    publishData (readSensor (String.toList "0") 10000) true ⟨0, 0, true⟩ =
      (⟨0, 0, true⟩, []) ∧
    loopTick ⟨0, 0, true⟩ [] 10000 (String.toList "0") true =
      some (⟨0, 10000, true⟩, []) := by
  have h := claim_C5 (String.toList "0") 10000 ⟨0, 0, true⟩ true
    (by decide) rfl (by decide)
  exact ⟨h.1, h.2.1, h.2.2⟩

/-- C6 counterexample: for the response `"0+1+2+3"` the parse is valid and
assigns `vwc_raw = 1` — the value between the 1st and 2nd separators — while
the substring delimited by `(start, sep1)`, which the claim says is assigned
to VWC-raw, is empty and parses to `0`. -/
theorem claim_C6_counterexample :
    (readSensor (String.toList "0+1+2+3") 0).valid = true ∧
    (readSensor (String.toList "0+1+2+3") 0).vwc_raw = 1 ∧
    atofQ (specFirstField ((String.toList "0+1+2+3").drop 1)) = 0 ∧
    (readSensor (String.toList "0+1+2+3") 0).vwc_raw ≠
      atofQ (specFirstField ((String.toList "0+1+2+3").drop 1)) := by
  have hv : (readSensor (String.toList "0+1+2+3") 0).vwc_raw = 1 := by
    simp +decide [readSensor, plusIndex1, plusIndex2, plusIndex3, indexOfChar,
      idxAux, vwcField, substringA, atofQ, atofMag, parseIntPart, parseFracPart,
      digitVal]
  have hs : atofQ (specFirstField ((String.toList "0+1+2+3").drop 1)) = 0 := by
    simp +decide [specFirstField, plusIndex1, indexOfChar, idxAux, atofQ,
      atofMag, parseIntPart]
  exact ⟨by decide, hv, hs, by rw [hv, hs]; norm_num⟩

/-- C6 (amended): for every valid parse, the substrings delimited by
`(sep1, sep2)`, `(sep2, sep3)` and `(sep3, end)` — not `(start, sep1)`,
`(sep1, sep2)`, `(sep2, end)` as the claim states — are assigned,
respectively, to the VWC-raw, temperature and EC-raw fields. -/
theorem claim_C6 (response : List Char) (t : ℕ)
    (h : (readSensor response t).valid = true) :
    (readSensor response t).vwc_raw =
      atofQ (substringA (response.drop 1)
        (plusIndex1 (response.drop 1) + 1).toNat (plusIndex2 (response.drop 1)).toNat) ∧
    (readSensor response t).temperature =
      atofQ (substringA (response.drop 1)
        (plusIndex2 (response.drop 1) + 1).toNat (plusIndex3 (response.drop 1)).toNat) ∧
    (readSensor response t).ec_raw =
      atofQ ((response.drop 1).drop (plusIndex3 (response.drop 1) + 1).toNat) := by
  rw [readSensor_valid_eq response t h]
  exact ⟨rfl, rfl, rfl⟩

/-- C6 witness: the amended assignment at the concrete valid response
`"0+1+2+3"`. -/
theorem claim_C6_witness :
    (readSensor (String.toList "0+1+2+3") 0).vwc_raw =
      atofQ (substringA ((String.toList "0+1+2+3").drop 1)
        (plusIndex1 ((String.toList "0+1+2+3").drop 1) + 1).toNat
        (plusIndex2 ((String.toList "0+1+2+3").drop 1)).toNat) ∧
    (readSensor (String.toList "0+1+2+3") 0).temperature =
      atofQ (substringA ((String.toList "0+1+2+3").drop 1)
        (plusIndex2 ((String.toList "0+1+2+3").drop 1) + 1).toNat
        (plusIndex3 ((String.toList "0+1+2+3").drop 1)).toNat) ∧
    (readSensor (String.toList "0+1+2+3") 0).ec_raw =
      atofQ (((String.toList "0+1+2+3").drop 1).drop
        (plusIndex3 ((String.toList "0+1+2+3").drop 1) + 1).toNat) :=
  claim_C6 (String.toList "0+1+2+3") 0 (by decide)

/-- C7: for every valid record, `publishData` makes exactly one state-topic
publish attempt (no retry within the tick); the reading counter increments
precisely when that publish reports success, and on failure the whole state
is unchanged. -/
theorem claim_C7 (data : SensorData) (pubOk : Bool) (s : SysState)
    (hv : data.valid = true) :
    (publishData data pubOk s).2 =
      [Event.publish getStateTopic (statePayload data) true] ∧
    (publishData data true s).1 = { s with readingNumber := s.readingNumber + 1 } ∧
    (publishData data false s).1 = s ∧
    ((publishData data pubOk s).1.readingNumber = s.readingNumber + 1 ↔ pubOk = true) := by
  unfold publishData
  rw [hv]
  cases pubOk <;> simp

/-- C7 witness: a concrete valid record against success and failure
outcomes. -/
theorem claim_C7_witness :
    (publishData ⟨1, 2, 3, 4, 5, 6, true, 0⟩ false ⟨7, 0, true⟩).2 =
      [Event.publish getStateTopic (statePayload ⟨1, 2, 3, 4, 5, 6, true, 0⟩) true] ∧
    (publishData ⟨1, 2, 3, 4, 5, 6, true, 0⟩ true ⟨7, 0, true⟩).1 = ⟨8, 0, true⟩ ∧
    (publishData ⟨1, 2, 3, 4, 5, 6, true, 0⟩ false ⟨7, 0, true⟩).1 = ⟨7, 0, true⟩ ∧
    ((publishData ⟨1, 2, 3, 4, 5, 6, true, 0⟩ false ⟨7, 0, true⟩).1.readingNumber = 7 + 1 ↔
      false = true) :=
  claim_C7 ⟨1, 2, 3, 4, 5, 6, true, 0⟩ false ⟨7, 0, true⟩ rfl

/-- C8: on every successful connection establishment from a disconnected
state, the publish sequence of the reconnect trace is the retained `"online"`
availability marker first, then the full discovery set — exactly 6 retained
discovery messages, one per physical quantity — and no state-topic
publication occurs anywhere in the trace (so any data publish can only come
after).  (The code then repeats the `"online"` marker once more at the end of
`publishDiscoveryConfigs`, visible as the trailing element.) -/
theorem claim_C8 (s s' : SysState) (outcomes : List Bool) (tr : List Event)
    (hc : s.mqttConnected = false)
    (h : reconnectMQTT s outcomes = some (s', tr)) :
    publishesOf tr =
      (availability_topic, "online", true) ::
        ((configs.map fun c => (discoveryConfigTopic c, discoveryConfigPayload c, true)) ++
          [(availability_topic, "online", true)]) ∧
    (configs.map fun c => (discoveryConfigTopic c, discoveryConfigPayload c, true)).length = 6 ∧
    (∀ pr ∈ publishesOf tr, pr.1 ≠ getStateTopic) := by
  obtain ⟨n, -, htr⟩ := reconnect_success_shape s outcomes s' tr hc h
  subst htr
  rw [publishesOf_failTrace]
  refine ⟨rfl, rfl, ?_⟩
  decide

/-- C8 witness: an immediately successful connect from `⟨0, 0, false⟩`. -/
theorem claim_C8_witness :
    publishesOf (Event.connectAttempt true ::
        Event.publish availability_topic "online" true :: publishDiscoveryConfigs) =
      (availability_topic, "online", true) ::
        ((configs.map fun c => (discoveryConfigTopic c, discoveryConfigPayload c, true)) ++
          [(availability_topic, "online", true)]) ∧
    (configs.map fun c => (discoveryConfigTopic c, discoveryConfigPayload c, true)).length = 6 ∧
    (∀ pr ∈ publishesOf (Event.connectAttempt true ::
        Event.publish availability_topic "online" true :: publishDiscoveryConfigs),
      pr.1 ≠ getStateTopic) :=
  claim_C8 ⟨0, 0, false⟩ ⟨0, 0, true⟩ [true]
    (Event.connectAttempt true ::
      Event.publish availability_topic "online" true :: publishDiscoveryConfigs)
    rfl rfl

/-- C9: with `N` consecutive connect failures followed by a success,
`reconnectMQTT` performs exactly `N + 1` connect attempts, each failure
followed by the fixed 5000 ms backoff (the full trace equation), reaches the
connected state, and leaves `readingNumber` unchanged. -/
theorem claim_C9 (s : SysState) (N : ℕ) (hc : s.mqttConnected = false) :
    reconnectMQTT s (List.replicate N false ++ [true]) =
      some ({ s with mqttConnected := true },
        failTrace N ++
        Event.connectAttempt true ::
        Event.publish availability_topic "online" true ::
        publishDiscoveryConfigs) ∧
    countConnects (failTrace N ++
        Event.connectAttempt true ::
        Event.publish availability_topic "online" true ::
        publishDiscoveryConfigs) = N + 1 ∧
    ({ s with mqttConnected := true } : SysState).readingNumber = s.readingNumber := by
  refine ⟨reconnect_replicate s hc N, ?_, rfl⟩
  rw [countConnects_append, countConnects_failTrace]
  have h1 : countConnects (Event.connectAttempt true ::
      Event.publish availability_topic "online" true :: publishDiscoveryConfigs) = 1 := rfl
  rw [h1]

/-- C9 witness: two failures then success from `⟨5, 3, false⟩`. -/
theorem claim_C9_witness :
    reconnectMQTT ⟨5, 3, false⟩ (List.replicate 2 false ++ [true]) =
      some (⟨5, 3, true⟩,
        failTrace 2 ++
        Event.connectAttempt true ::
        Event.publish availability_topic "online" true ::
        publishDiscoveryConfigs) ∧
    countConnects (failTrace 2 ++
        Event.connectAttempt true ::
        Event.publish availability_topic "online" true ::
        publishDiscoveryConfigs) = 2 + 1 ∧
    (⟨5, 3, true⟩ : SysState).readingNumber = 5 :=
  claim_C9 ⟨5, 3, false⟩ 2 rfl

/-- C10: a response in the documented wire shape
`<address><sign><value><sign><value><sign><value><terminator>` in which any
of the three sign characters is `'-'` parses to `valid = false` (the scan
finds fewer than three `'+'`), and conversely a valid parse of a wire-shaped
response forces all three signs to be `'+'`. -/
theorem claim_C10 (addr s1 s2 s3 : Char) (v1 v2 v3 term : List Char) (t : ℕ)
    (h1 : '+' ∉ v1) (h2 : '+' ∉ v2) (h3 : '+' ∉ v3) (h4 : '+' ∉ term) :
    ((s1 = '-' ∨ s2 = '-' ∨ s3 = '-') →
      (readSensor (addr :: s1 :: (v1 ++ s2 :: (v2 ++ s3 :: (v3 ++ term)))) t).valid = false) ∧
    ((readSensor (addr :: s1 :: (v1 ++ s2 :: (v2 ++ s3 :: (v3 ++ term)))) t).valid = true →
      s1 = '+' ∧ s2 = '+' ∧ s3 = '+') := by
  have hcnt : ((addr :: s1 :: (v1 ++ s2 :: (v2 ++ s3 :: (v3 ++ term)))).drop 1).count '+' =
      ((if s1 = '+' then 1 else 0) + (if s2 = '+' then 1 else 0)) +
        (if s3 = '+' then 1 else 0) := by
    show (s1 :: (v1 ++ s2 :: (v2 ++ s3 :: (v3 ++ term)))).count '+' = _
    rw [List.count_cons, List.count_append, List.count_cons, List.count_append,
      List.count_cons, List.count_append, List.count_eq_zero.mpr h1,
      List.count_eq_zero.mpr h2, List.count_eq_zero.mpr h3,
      List.count_eq_zero.mpr h4]
    simp only [beq_iff_eq]
    ring
  constructor
  · intro hsign
    cases hval : (readSensor (addr :: s1 :: (v1 ++ s2 :: (v2 ++ s3 :: (v3 ++ term)))) t).valid with
    | false => rfl
    | true =>
      exfalso
      have h3c := valid_count _ t hval
      rw [hcnt] at h3c
      rcases hsign with hs | hs | hs <;> rw [hs] at h3c <;> simp at h3c <;>
        split_ifs at h3c <;> omega
  · intro hval
    have h3c := valid_count _ t hval
    rw [hcnt] at h3c
    refine ⟨?_, ?_, ?_⟩ <;> by_contra hne
    · rw [if_neg hne] at h3c
      split_ifs at h3c <;> omega
    · rw [if_neg hne] at h3c
      split_ifs at h3c <;> omega
    · rw [if_neg hne] at h3c
      split_ifs at h3c <;> omega

/-- C10 witness: the wire-shaped response `"0+12-3+4\r\n"` — a negative
second (temperature) field — parses invalid. -/
theorem claim_C10_witness :
    ('+' ∉ String.toList "12") ∧ ('+' ∉ String.toList "3") ∧
    ('+' ∉ String.toList "4") ∧ ('+' ∉ String.toList "\r\n") ∧
    (readSensor ('0' :: '+' :: (String.toList "12" ++ '-' ::
      (String.toList "3" ++ '+' :: (String.toList "4" ++ String.toList "\r\n")))) 0).valid
      = false :=
  ⟨by decide, by decide, by decide, by decide,
   (claim_C10 '0' '+' '-' '+' (String.toList "12") (String.toList "3")
      (String.toList "4") (String.toList "\r\n") 0
      (by decide) (by decide) (by decide) (by decide)).1 (Or.inr (Or.inl rfl))⟩

end Sdi12
